import Mathlib

/- Verification of the session/export state machine and scheduling loop of the
Cracked-Oura backend (`backend/src/automation.py`, `backend/src/api/main.py`,
`backend/src/api/routes.py`, `backend/src/config.py`).  Browser side effects
are embedded as oracle worlds: each awaited page sub-step is an input telling
the model what the live page did (which elements were visible, whether a call
raised), and the orchestration logic over those outcomes is translated
statement by statement from the source. -/

namespace Oura

/-- Wall-clock timestamp as used by `background_worker` in
`backend/src/api/main.py`: a day index plus hour, minute, second and
microsecond, mirroring Python `datetime.now()`. -/
structure DateTime where
  day : Nat
  hour : Nat
  minute : Nat
  second : Nat
  micro : Nat
deriving DecidableEq, Repr

/-- Chronological value of a timestamp in microseconds.  Python `datetime`
comparison agrees with comparison of this value on valid timestamps. -/
def DateTime.toMicros (t : DateTime) : Nat :=
  (((t.day * 24 + t.hour) * 60 + t.minute) * 60 + t.second) * 1000000 + t.micro

/-- Field bounds of a real `datetime` value. -/
def DateTime.Valid (t : DateTime) : Prop :=
  t.hour < 24 ∧ t.minute < 60 ∧ t.second < 60 ∧ t.micro < 1000000

/-- Embedding of `now.replace(hour=sh, minute=sm, second=0, microsecond=0)`
from `background_worker`. -/
def DateTime.replaceTime (t : DateTime) (h m : Nat) : DateTime :=
  { t with hour := h, minute := m, second := 0, micro := 0 }

/-- Embedding of `run_today + timedelta(days=1)`. -/
def DateTime.addOneDay (t : DateTime) : DateTime :=
  { t with day := t.day + 1 }

/-- The `next_run` computation of `background_worker`
(`backend/src/api/main.py` lines 342-347): `run_today = now.replace(hour=sh,
minute=sm, second=0, microsecond=0)`; `next_run = run_today + timedelta(days=1)
if now > run_today else run_today`. -/
def computeNextRun (now : DateTime) (sh sm : Nat) : DateTime :=
  let runToday := now.replaceTime sh sm
  if runToday.toMicros < now.toMicros then runToday.addOneDay else runToday

/-- JSON-style values stored in `oura_config.json` / `oura_dashboard.json`
(`backend/src/config.py`). -/
inductive JVal
  | jstr (s : String)
  | jbool (b : Bool)
  | jnum (n : Int)
deriving DecidableEq, Repr

/-- A loaded JSON object (a Python `dict`), as a key-to-value lookup. -/
abbrev ConfMap := String → Option JVal

/-- Assignment `conf[key] = value` on a loaded JSON object. -/
def setKey (c : ConfMap) (k : String) (v : JVal) : ConfMap :=
  fun key => if key = k then some v else c key

/-- Embedding of `ConfigManager.update_config` (`backend/src/config.py` lines
92-116): iterate over the supplied keyword arguments; a `None` value is
skipped (`if value is None: continue`); the key `"dashboard"` is routed to the
dashboard file, every other key to the main config file. -/
def update_config : ConfMap → ConfMap → List (String × Option JVal) → ConfMap × ConfMap
  | main, dash, [] => (main, dash)
  | main, dash, (_, none) :: rest => update_config main dash rest
  | main, dash, (k, some v) :: rest =>
    if k = "dashboard" then update_config main (setKey dash k v) rest
    else update_config (setKey main k v) dash rest

/-- Embedding of `ConfigManager.update_status` (`backend/src/config.py` lines
118-123): `self.update_config(status=status, **kwargs)`. -/
def update_status (main dash : ConfMap) (status : String)
    (kwargs : List (String × Option JVal)) : ConfMap × ConfMap :=
  update_config main dash (("status", some (JVal.jstr status)) :: kwargs)

/-- Handle state of the `OuraAutomator` singleton (`backend/src/automation.py`):
which of `page`, `context`, `browser`, `playwright` are set (truthy), the
`_is_initialized` flag, and whether the persisted StorageState file
`oura_session.json` exists on disk. -/
structure AutomatorHandles where
  page : Bool
  context : Bool
  browser : Bool
  playwright : Bool
  isInitialized : Bool
  sessionFileExists : Bool
deriving DecidableEq, Repr

/-- Observable teardown operations performed by `cleanup` / `clear_session`. -/
inductive CleanupAct
  | closePage
  | closeContext
  | closeBrowser
  | stopPlaywright
  | removeSessionFile
deriving DecidableEq, Repr

/-- Operations performed by `OuraAutomator.cleanup` (`backend/src/automation.py`
lines 125-134): `if self.context: await self.context.close()`,
`if self.browser: await self.browser.close()`,
`if self.playwright: await self.playwright.stop()` - in that order.  There is
no explicit page close in the source. -/
def cleanupTrace (s : AutomatorHandles) : List CleanupAct :=
  (if s.context then [CleanupAct.closeContext] else []) ++
  (if s.browser then [CleanupAct.closeBrowser] else []) ++
  (if s.playwright then [CleanupAct.stopPlaywright] else [])

/-- State after `OuraAutomator.cleanup`: the handle attributes are not reset in
the source (only the external objects are closed); `_is_initialized` is set to
`False`. -/
def cleanup (s : AutomatorHandles) : AutomatorHandles :=
  { s with isInitialized := false }

/-- Embedding of `OuraAutomator.clear_session` (`backend/src/automation.py`
lines 136-143): `await self.cleanup()`, then if the StorageState file exists
remove it and return `True`, else return `False`.  Result: returned boolean,
state after the call, and the trace of teardown operations. -/
def clear_session (s : AutomatorHandles) : Bool × AutomatorHandles × List CleanupAct :=
  let s1 := cleanup s
  if s1.sessionFileExists then
    (true, { s1 with sessionFileExists := false },
      cleanupTrace s ++ [CleanupAct.removeSessionFile])
  else
    (false, s1, cleanupTrace s)

/-- Embedding of `OuraAutomator.save_context` (`backend/src/automation.py`
lines 145-149): `if self.context: await self.context.storage_state(path=...)`.
Returns whether the StorageState file was written. -/
def save_context (contextPresent : Bool) : Bool :=
  contextPresent

/-- Page-state oracle for one `submit_otp` call: which OTP input selector is
visible, whether the fill/dispatch/submit/wait sequence raises, whether
`_is_logged_in()` holds after submission, whether the invalid-code texts
("Virheellinen koodi" / "Invalid code") are visible, and whether a browser
context is live (for `save_context`). -/
structure OtpEnv where
  pageInitialized : Bool
  otpNameVisible : Bool
  otpIdVisible : Bool
  otpVerifVisible : Bool
  submitFault : Option String
  loggedInAfter : Bool
  invalidFi : Bool
  invalidEn : Bool
  contextPresent : Bool
deriving DecidableEq, Repr

/-- Status tag of the dictionaries returned by `submit_otp`. -/
inductive OtpStatus
  | success
  | error
deriving DecidableEq, Repr

/-- The `{"status": ..., "message": ...}` dictionary returned by `submit_otp`. -/
structure OtpResult where
  status : OtpStatus
  message : String
deriving DecidableEq, Repr

/-- Embedding of `OuraAutomator.submit_otp` (`backend/src/automation.py` lines
269-305).  Returns the result dictionary and whether `save_context` wrote the
StorageState file.  The source wraps the body in `try/except` and returns an
error dictionary on any raised exception, so the model is total: no page state
makes it throw. -/
def submit_otp (env : OtpEnv) (otp : String) : OtpResult × Bool :=
  if !env.pageInitialized then
    ({ status := OtpStatus.error, message := "Page not initialized" }, false)
  else if env.otpNameVisible || env.otpIdVisible || env.otpVerifVisible then
    match env.submitFault with
    | some m => ({ status := OtpStatus.error, message := m }, false)
    | none =>
      if env.loggedInAfter then
        ({ status := OtpStatus.success, message := "Login successful!" },
          save_context env.contextPresent)
      else if env.invalidFi || env.invalidEn then
        ({ status := OtpStatus.error, message := "Invalid OTP code." }, false)
      else
        ({ status := OtpStatus.error, message := "Login failed (Unknown state)." }, false)
  else
    ({ status := OtpStatus.error, message := "Could not find OTP input field" }, false)

/-- Result of one awaited page sub-step: a returned value, or a raised
exception with its message. -/
inductive StepRes (α : Type)
  | ok (val : α)
  | fault (msg : String)
deriving DecidableEq, Repr

/-- Oracle world for one export-orchestration call: outcome of
`self.initialize()` when it runs, outcome of `_navigate_to_export_page`, the
page URL check after a failed navigation, outcome of
`_click_request_export_button`, per-iteration button observations for
`_wait_for_processing` (primary selector `[data-testid="pageSubtitle"] +
button`, fallback `main button`), a possible fault inside the wait loop's page
operations, and the outcome of `_download_file`. -/
structure ExportWorld where
  isInitialized : Bool
  initFault : Option String
  nav : StepRes Bool
  urlAtLoginAfterNav : Bool
  click : StepRes Bool
  primaryVisible : Nat → Bool
  primaryEnabled : Nat → Bool
  fallbackVisible : Nat → Bool
  fallbackEnabled : Nat → Bool
  waitFault : Option String
  download : StepRes (Option String)

/-- One readiness check of `_wait_for_processing` (`backend/src/automation.py`
lines 465-471): take the primary button if visible, else the fallback button;
ready iff the chosen button is visible and enabled. -/
def pollReady (w : ExportWorld) (i : Nat) : Bool :=
  if w.primaryVisible i then w.primaryEnabled i
  else w.fallbackVisible i && w.fallbackEnabled i

/-- The `max_retries = 30` constant of `_wait_for_processing`. -/
def maxRetries : Nat := 30

/-- The `poll_interval = 300` (seconds) constant of `_wait_for_processing`. -/
def pollIntervalSeconds : Nat := 300

/-- The `for i in range(max_retries)` loop of `_wait_for_processing`: succeed
at the first iteration whose readiness check passes, else return `False` after
the budget is spent. -/
def waitLoop (ready : Nat → Bool) : Nat → Nat → Bool
  | 0, _ => false
  | fuel + 1, i => if ready i then true else waitLoop ready fuel (i + 1)

/-- Embedding of `OuraAutomator._wait_for_processing`
(`backend/src/automation.py` lines 460-479). -/
def wait_for_processing (w : ExportWorld) : Bool :=
  waitLoop (pollReady w) maxRetries 0

/-- Number of readiness checks the wait loop performs. -/
def pollCountLoop (ready : Nat → Bool) : Nat → Nat → Nat
  | 0, _ => 0
  | fuel + 1, i => if ready i then 1 else 1 + pollCountLoop ready fuel (i + 1)

/-- Number of readiness checks `_wait_for_processing` performs. -/
def waitPollCount (w : ExportWorld) : Nat :=
  pollCountLoop (pollReady w) maxRetries 0

/-- Total seconds slept by the wait loop (`poll_interval` after every failed
check). -/
def sleepLoop (ready : Nat → Bool) : Nat → Nat → Nat
  | 0, _ => 0
  | fuel + 1, i => if ready i then 0 else pollIntervalSeconds + sleepLoop ready fuel (i + 1)

/-- Total seconds `_wait_for_processing` sleeps between checks. -/
def waitSleepSeconds (w : ExportWorld) : Nat :=
  sleepLoop (pollReady w) maxRetries 0

/-- Value returned by `request_new_export_and_download`: a saved file path, the
`None` "no file" result, the `{"status": "otp_required"}` dictionary, or a
raised exception escaping to the caller. -/
inductive ReqResult
  | savedPath (p : String)
  | noFile
  | otpRequired
  | raised (msg : String)
deriving DecidableEq, Repr

/-- Value returned by `download_existing_export`: additionally the
`{"status": "error", "message": ...}` dictionary its `except` branch builds. -/
inductive DlResult
  | savedPath (p : String)
  | noFile
  | otpRequired
  | errorDict (msg : String)
  | raised (msg : String)
deriving DecidableEq, Repr

/-- Embedding of `OuraAutomator.request_new_export_and_download`
(`backend/src/automation.py` lines 309-349).  `initialize` (and the
`new_page` fallback) runs before the `try` block, so its faults escape; inside
the `try`: failed navigation returns `otp_required` when the page URL is at
login/authn and `None` otherwise; the click result is only logged; a wait
timeout returns `None`; `_download_file` returns the saved path or `None`;
any exception raised inside the `try` is caught and returns `None`. -/
def request_new_export_and_download (w : ExportWorld) : ReqResult :=
  match (if w.isInitialized then none else w.initFault) with
  | some m => ReqResult.raised m
  | none =>
    match w.nav with
    | StepRes.fault _ => ReqResult.noFile
    | StepRes.ok false =>
      if w.urlAtLoginAfterNav then ReqResult.otpRequired else ReqResult.noFile
    | StepRes.ok true =>
      match w.click with
      | StepRes.fault _ => ReqResult.noFile
      | StepRes.ok _ =>
        match w.waitFault with
        | some _ => ReqResult.noFile
        | none =>
          if wait_for_processing w then
            match w.download with
            | StepRes.fault _ => ReqResult.noFile
            | StepRes.ok none => ReqResult.noFile
            | StepRes.ok (some p) => ReqResult.savedPath p
          else ReqResult.noFile

/-- Embedding of `OuraAutomator.download_existing_export`
(`backend/src/automation.py` lines 351-371).  `initialize` runs before the
`try` block; a failed navigation returns the `otp_required` dictionary
unconditionally; any exception raised inside the `try` returns the
`{"status": "error", "message": str(e)}` dictionary. -/
def download_existing_export (w : ExportWorld) : DlResult :=
  match (if w.isInitialized then none else w.initFault) with
  | some m => DlResult.raised m
  | none =>
    match w.nav with
    | StepRes.fault m => DlResult.errorDict m
    | StepRes.ok false => DlResult.otpRequired
    | StepRes.ok true =>
      match w.download with
      | StepRes.fault m => DlResult.errorDict m
      | StepRes.ok none => DlResult.noFile
      | StepRes.ok (some p) => DlResult.savedPath p

/-- Outcome of `automator.login()` as observed by its callers: logged in
(`None` or a success dictionary), the `otp_required` dictionary, or a raised
exception. -/
inductive LoginOut
  | loggedIn
  | otpRequired
  | fault (msg : String)
deriving DecidableEq, Repr

/-- Observable actions of the orchestration tasks: writes to the status store
(`update_status` with the given status value, optionally with `last_run` or
`next_run` fields), browser operations, and automator cleanup. -/
inductive Act
  | setStatus (s : String)
  | setStatusLastRun (s : String) (lastRun : String)
  | setStatusNextRun (s : String) (nextRun : DateTime)
  | browser (op : String)
  | cleanup
deriving DecidableEq, Repr

/-- Oracle world for one run of `run_ingestion_task`: outcome of its own
`initialize` call, outcome of `login()`, the export-orchestration world, the
ingestion outcome (`None` for success, an error message for a raised parser
exception) and the `datetime.now()` string stamped on success. -/
structure RunWorld where
  initFault : Option String
  loginOutcome : LoginOut
  exportW : ExportWorld
  ingestFault : Option String
  nowStr : String

/-- Embedding of `process_ingestion` (`backend/src/api/main.py` lines
309-328): status `"Ingesting..."`, then on success `update_status("Idle",
last_run=now)` and on a parser exception `"Ingestion Failed: <e>"`. -/
def process_ingestion (ingestFault : Option String) (nowStr : String) : List Act :=
  Act.setStatus "Ingesting..." ::
  match ingestFault with
  | none => [Act.setStatusLastRun "Idle" nowStr]
  | some m => [Act.setStatus ("Ingestion Failed: " ++ m)]

/-- Embedding of `run_ingestion_task` (`backend/src/api/main.py` lines
248-307) as its trace of observable actions.  `if not force and not
cfg.get("is_active", True): return`; then `"Starting..."`,
`"Initializing..."`, `initialize`, `login()`; `otp_required` parks the run at
`"Waiting for OTP..."`; then `"Running Automation..."`,
`request_new_export_and_download`; a saved path leads to `"Downloading..."`
and ingestion; `None` leads to `"Failed to download export."`; any raised
exception is caught and stamped as `"Error: <e>"`; `cleanup` runs on every
completed or failed path (but not on the parked `otp_required` returns). -/
def run_ingestion_task (force isActive : Bool) (w : RunWorld) : List Act :=
  if !force && !isActive then []
  else
    Act.setStatus "Starting..." ::
    Act.setStatus "Initializing..." ::
    Act.browser "automator.initialize" ::
    match w.initFault with
    | some m => [Act.setStatus ("Error: " ++ m), Act.cleanup]
    | none =>
      Act.browser "automator.login" ::
      match w.loginOutcome with
      | LoginOut.fault m => [Act.setStatus ("Error: " ++ m), Act.cleanup]
      | LoginOut.otpRequired => [Act.setStatus "Waiting for OTP..."]
      | LoginOut.loggedIn =>
        Act.setStatus "Running Automation..." ::
        Act.browser "request_new_export_and_download" ::
        match request_new_export_and_download w.exportW with
        | ReqResult.otpRequired => [Act.setStatus "Waiting for OTP..."]
        | ReqResult.raised m => [Act.setStatus ("Error: " ++ m), Act.cleanup]
        | ReqResult.noFile => [Act.setStatus "Failed to download export.", Act.cleanup]
        | ReqResult.savedPath _ =>
          Act.setStatus "Downloading..." ::
          process_ingestion w.ingestFault w.nowStr ++ [Act.cleanup]

/-- Embedding of `run_full_sync_task` (`backend/src/api/routes.py` lines
71-120): status `"Processing"` is written twice (with messages) before the
orchestrator call; `otp_required`, a `None` result, and any raised exception
all end in status `"Error"` (with distinct messages); a downloaded file is
ingested, ending in `update_status("Idle", ..., last_run=now)`, with a parser
exception caught by the outer `except` as status `"Error"`; `cleanup` runs in
the `finally` block on every path. -/
def run_full_sync_task (w : ExportWorld) (ingestFault : Option String)
    (nowStr : String) : List Act :=
  Act.setStatus "Processing" ::
  Act.setStatus "Processing" ::
  Act.browser "request_new_export_and_download" ::
  (match request_new_export_and_download w with
   | ReqResult.otpRequired => [Act.setStatus "Error"]
   | ReqResult.raised _ => [Act.setStatus "Error"]
   | ReqResult.noFile => [Act.setStatus "Error"]
   | ReqResult.savedPath _ =>
     Act.setStatus "Processing" ::
     match ingestFault with
     | none => [Act.setStatusLastRun "Idle" nowStr]
     | some _ => [Act.setStatus "Error"]) ++ [Act.cleanup]

/-- Outcome of the `request-export` endpoint: HTTP 409 conflict, or the
background task was queued. -/
inductive ReqExportOutcome
  | conflict409
  | started
deriving DecidableEq, Repr

/-- Subset of the stored config record read by the orchestration entry points. -/
structure Cfg where
  email : String
  status : String
  is_active : Bool
  headless : Bool
deriving DecidableEq, Repr

/-- Embedding of the `request-export` route (`backend/src/api/routes.py` lines
166-176): `if cfg.get("status") == "Processing": raise HTTPException(409)`;
otherwise queue `run_full_sync_task`.  The result is the HTTP outcome plus the
trace of actions the attempt causes. -/
def request_export_endpoint (cfg : Cfg) (w : ExportWorld)
    (ingestFault : Option String) (nowStr : String) :
    ReqExportOutcome × List Act :=
  if cfg.status = "Processing" then (ReqExportOutcome.conflict409, [])
  else (ReqExportOutcome.started, run_full_sync_task w ingestFault nowStr)

/-- HTTP outcome of the `run-now` endpoint. -/
inductive RunNowOutcome
  | started
  | errorResp (msg : String)
deriving DecidableEq, Repr

/-- Embedding of the `run-now` endpoint `run_automation`
(`backend/src/api/main.py` lines 149-167): it writes status
`"Starting manual run..."` unconditionally (no status check), initializes the
automator, and queues `run_ingestion_task(force=True)`; a fault in
initialization returns an error response without queuing the task. -/
def run_now_endpoint (cfg : Cfg) (w : RunWorld) : RunNowOutcome × List Act :=
  match w.initFault with
  | some m =>
    (RunNowOutcome.errorResp m,
      [Act.setStatus "Starting manual run...", Act.browser "automator.initialize"])
  | none =>
    (RunNowOutcome.started,
      Act.setStatus "Starting manual run..." ::
      Act.browser "automator.initialize" ::
      run_ingestion_task true cfg.is_active w)

/-- Containment check for `"Waiting" in cfg.get("status", "")`. -/
def hasSubstring (hay needle : List Char) : Bool :=
  match hay with
  | [] => needle.isEmpty
  | c :: t => List.isPrefixOf needle (c :: t) || hasSubstring t needle

/-- The Python containment test `"Waiting" in status`. -/
def statusHasWaiting (status : String) : Bool :=
  hasSubstring status.toList "Waiting".toList

/-- Which branch one scheduler tick takes. -/
inductive TickAction
  | dailyRun
  | pollRun
  | noAction
deriving DecidableEq, Repr

/-- Branch selection of one `background_worker` tick (`backend/src/api/main.py`
lines 351-358): `if now.hour == sh and now.minute == sm` run the daily full
run; `elif "Waiting" in cfg.get("status", "")` and `now.minute % 5 == 0` run
the resume/poll invocation; else do nothing. -/
def scheduler_tick_action (now : DateTime) (sh sm : Nat) (status : String) :
    TickAction :=
  if now.hour == sh && now.minute == sm then TickAction.dailyRun
  else if statusHasWaiting status && now.minute % 5 == 0 then TickAction.pollRun
  else TickAction.noAction

/-- One tick of `background_worker` (`backend/src/api/main.py` lines 336-358),
assuming `schedule_time` parsed as `sh:sm`: the tick always writes the current
status back together with the computed `next_run`, then takes its branch; both
the daily branch and the poll branch invoke `run_ingestion_task()` (with
`force=False`). -/
def scheduler_tick (now : DateTime) (sh sm : Nat) (cfg : Cfg) (w : RunWorld) :
    List Act :=
  Act.setStatusNextRun cfg.status (computeNextRun now sh sm) ::
  (match scheduler_tick_action now sh sm cfg.status with
   | TickAction.dailyRun => run_ingestion_task false cfg.is_active w
   | TickAction.pollRun => run_ingestion_task false cfg.is_active w
   | TickAction.noAction => [])

/-- Whether the trace writes a status other than `"Idle"` before its first
browser operation (vacuously true when it performs no browser operation). -/
def nonIdleBeforeBrowser : List Act → Bool
  | [] => true
  | Act.browser _ :: _ => false
  | Act.setStatus s :: rest =>
    if s = "Idle" then nonIdleBeforeBrowser rest else true
  | Act.setStatusLastRun s _ :: rest =>
    if s = "Idle" then nonIdleBeforeBrowser rest else true
  | Act.setStatusNextRun s _ :: rest =>
    if s = "Idle" then nonIdleBeforeBrowser rest else true
  | Act.cleanup :: rest => nonIdleBeforeBrowser rest

/-- The status value left in the store by the last status write of a trace. -/
def lastStatus (tr : List Act) : Option String :=
  tr.foldl
    (fun acc a =>
      match a with
      | Act.setStatus s => some s
      | Act.setStatusLastRun s _ => some s
      | Act.setStatusNextRun s _ => some s
      | _ => acc)
    none

/- ------------------------------------------------------------------ -/
/- Helper lemmas                                                       -/
/- ------------------------------------------------------------------ -/

theorem update_config_preserve :
    ∀ (kwargs : List (String × Option JVal)) (main dash : ConfMap) (k : String),
      (kwargs.all fun kv => kv.1 != k || kv.2.isNone) = true →
      (update_config main dash kwargs).1 k = main k ∧
      (update_config main dash kwargs).2 k = dash k := by
  intro kwargs
  induction kwargs with
  | nil => intro main dash k _; exact ⟨rfl, rfl⟩
  | cons kv rest ih =>
    intro main dash k h
    obtain ⟨k', v'⟩ := kv
    simp only [List.all_cons, Bool.and_eq_true] at h
    obtain ⟨h1, h2⟩ := h
    cases v' with
    | none =>
      exact ih main dash k h2
    | some v =>
      have hk : k' ≠ k := by simpa using h1
      have hk2 : ¬k = k' := fun h => hk h.symm
      by_cases hd : k' = "dashboard"
      · rw [update_config, if_pos hd]
        have := ih main (setKey dash k' v) k h2
        refine ⟨this.1, this.2.trans ?_⟩
        simp [setKey, hk2]
      · rw [update_config, if_neg hd]
        have := ih (setKey main k' v) dash k h2
        refine ⟨this.1.trans ?_, this.2⟩
        simp [setKey, hk2]

theorem update_config_no_clear :
    ∀ (kwargs : List (String × Option JVal)) (main dash : ConfMap) (k : String),
      ((update_config main dash kwargs).1 k = none → main k = none) ∧
      ((update_config main dash kwargs).2 k = none → dash k = none) := by
  intro kwargs
  induction kwargs with
  | nil => intro main dash k; exact ⟨fun h => h, fun h => h⟩
  | cons kv rest ih =>
    intro main dash k
    obtain ⟨k', v'⟩ := kv
    cases v' with
    | none => exact ih main dash k
    | some v =>
      by_cases hd : k' = "dashboard"
      · rw [update_config, if_pos hd]
        refine ⟨(ih main (setKey dash k' v) k).1, fun h => ?_⟩
        have h2 := (ih main (setKey dash k' v) k).2 h
        by_cases hk : k = k'
        · simp [setKey, hk] at h2
        · simpa [setKey, hk] using h2
      · rw [update_config, if_neg hd]
        refine ⟨fun h => ?_, (ih (setKey main k' v) dash k).2⟩
        have h2 := (ih (setKey main k' v) dash k).1 h
        by_cases hk : k = k'
        · simp [setKey, hk] at h2
        · simpa [setKey, hk] using h2

theorem waitLoop_false (ready : Nat → Bool) :
    ∀ (fuel i : Nat), (∀ j, j < fuel → ready (i + j) = false) →
      waitLoop ready fuel i = false := by
  intro fuel
  induction fuel with
  | zero => intro i _; rfl
  | succ n ih =>
    intro i h
    have h0 : ready i = false := by simpa using h 0 (Nat.succ_pos n)
    rw [waitLoop, h0]
    simp only [Bool.false_eq_true, if_false]
    refine ih (i + 1) fun j hj => ?_
    have := h (j + 1) (Nat.succ_lt_succ hj)
    simpa [Nat.add_assoc, Nat.add_comm 1 j] using this

theorem pollCountLoop_le (ready : Nat → Bool) :
    ∀ (fuel i : Nat), pollCountLoop ready fuel i ≤ fuel := by
  intro fuel
  induction fuel with
  | zero => intro i; exact Nat.le_refl 0
  | succ n ih =>
    intro i
    rw [pollCountLoop]
    by_cases h : ready i = true
    · simp [h]
    · rw [if_neg h]
      have := ih (i + 1)
      omega

theorem sleepLoop_exhausted (ready : Nat → Bool) :
    ∀ (fuel i : Nat), (∀ j, j < fuel → ready (i + j) = false) →
      sleepLoop ready fuel i = fuel * pollIntervalSeconds := by
  intro fuel
  induction fuel with
  | zero => intro i _; rfl
  | succ n ih =>
    intro i h
    have h0 : ready i = false := by simpa using h 0 (Nat.succ_pos n)
    rw [sleepLoop, h0]
    simp only [Bool.false_eq_true, if_false]
    rw [ih (i + 1) fun j hj => by
      have := h (j + 1) (Nat.succ_lt_succ hj)
      simpa [Nat.add_assoc, Nat.add_comm 1 j] using this]
    rw [Nat.succ_mul]
    exact Nat.add_comm _ _

/- ------------------------------------------------------------------ -/
/- C10                                                                 -/
/- ------------------------------------------------------------------ -/

/-- C10: for every `update_config` (and hence `update_status`) call, stored
keys absent from the supplied arguments, or supplied with value `None`, are
left unchanged in both persisted files; and no key is ever cleared to
null/absent by the update. -/
theorem c10_update_config_frame (main dash : ConfMap) (status : String)
    (kwargs : List (String × Option JVal)) (k : String) :
    ((kwargs.all fun kv => kv.1 != k || kv.2.isNone) = true →
      (update_config main dash kwargs).1 k = main k ∧
      (update_config main dash kwargs).2 k = dash k) ∧
    ((update_config main dash kwargs).1 k = none → main k = none) ∧
    ((update_config main dash kwargs).2 k = none → dash k = none) ∧
    (k ≠ "status" →
      (kwargs.all fun kv => kv.1 != k || kv.2.isNone) = true →
      (update_status main dash status kwargs).1 k = main k ∧
      (update_status main dash status kwargs).2 k = dash k) := by
  refine ⟨update_config_preserve kwargs main dash k,
    (update_config_no_clear kwargs main dash k).1,
    (update_config_no_clear kwargs main dash k).2, ?_⟩
  intro hks hall
  unfold update_status
  refine update_config_preserve _ main dash k ?_
  simp only [List.all_cons, Bool.and_eq_true]
  exact ⟨by simpa using fun h => hks h.symm, hall⟩

def c10Main : ConfMap :=
  fun k => if k = "email" then some (JVal.jstr "user@example.com") else none

def c10Dash : ConfMap := fun _ => none

def c10Kwargs : List (String × Option JVal) :=
  [("schedule_time", some (JVal.jstr "11:00")), ("email", none)]

/-- C10 witness: a concrete update that supplies `schedule_time` and supplies
`email` as `None` leaves the stored `email` untouched. -/
theorem c10_witness :
    (update_config c10Main c10Dash c10Kwargs).1 "email" =
      some (JVal.jstr "user@example.com") := by
  have h := (c10_update_config_frame c10Main c10Dash "Idle" c10Kwargs "email").1
    (by decide)
  exact h.1.trans (by decide)

/- ------------------------------------------------------------------ -/
/- C7                                                                  -/
/- ------------------------------------------------------------------ -/

/-- C7: `clear_session` performs cleanup first and only then deletes the
StorageState file when present; it returns `true` exactly when a file existed;
immediately calling it again returns `false`; both calls are total functions
of the handle state (they never raise). -/
theorem c7_clear_session (s : AutomatorHandles) :
    (clear_session s).1 = s.sessionFileExists ∧
    (clear_session s).2.1.sessionFileExists = false ∧
    (clear_session s).2.2 =
      cleanupTrace s ++
        (if s.sessionFileExists then [CleanupAct.removeSessionFile] else []) ∧
    (clear_session (clear_session s).2.1).1 = false := by
  cases hf : s.sessionFileExists <;>
    simp [clear_session, cleanup, hf]

/- ------------------------------------------------------------------ -/
/- C8                                                                  -/
/- ------------------------------------------------------------------ -/

def fullHandles : AutomatorHandles :=
  { page := true, context := true, browser := true, playwright := true,
    isInitialized := true, sessionFileExists := true }

/-- C8 counterexample: on a fully initialized automator, `cleanup` performs no
page-close operation at all, so its operation sequence is not the claimed
page, context, browser, runtime sequence. -/
theorem c8_counterexample :
    cleanupTrace fullHandles ≠
      [CleanupAct.closePage, CleanupAct.closeContext, CleanupAct.closeBrowser,
        CleanupAct.stopPlaywright] ∧
    CleanupAct.closePage ∉ cleanupTrace fullHandles := by
  decide

/-- C8 (amended): `cleanup` closes the context, the browser and the automation
runtime, in that order, with no explicit page close (the page is torn down
with its context); it clears the initialized flag, leaves the StorageState
file untouched, and is always safe to call, including when nothing was
initialized (each close is guarded on its handle, and all-`None` handles give
an empty operation sequence). -/
theorem c8_cleanup (s : AutomatorHandles) :
    (cleanup s).isInitialized = false ∧
    List.Sublist (cleanupTrace s)
      [CleanupAct.closeContext, CleanupAct.closeBrowser, CleanupAct.stopPlaywright] ∧
    CleanupAct.closePage ∉ cleanupTrace s ∧
    ((CleanupAct.closeContext ∈ cleanupTrace s) ↔ s.context = true) ∧
    ((CleanupAct.closeBrowser ∈ cleanupTrace s) ↔ s.browser = true) ∧
    ((CleanupAct.stopPlaywright ∈ cleanupTrace s) ↔ s.playwright = true) ∧
    (cleanup s).sessionFileExists = s.sessionFileExists := by
  obtain ⟨p, c, b, pl, ii, f⟩ := s
  cases c <;> cases b <;> cases pl <;>
    simp [cleanup, cleanupTrace]

/-- C8 witness: on the fully initialized automator the flag is cleared and the
context close operation is performed. -/
theorem c8_witness :
    (cleanup fullHandles).isInitialized = false ∧
    CleanupAct.closeContext ∈ cleanupTrace fullHandles :=
  ⟨(c8_cleanup fullHandles).1, ((c8_cleanup fullHandles).2.2.2.1).mpr rfl⟩

/- ------------------------------------------------------------------ -/
/- C6                                                                  -/
/- ------------------------------------------------------------------ -/

/-- C6: the StorageState file is written by `submit_otp` only on a
confirmed-successful authentication: a non-success outcome never saves, and a
save implies the page verified as logged in with a success outcome. -/
theorem c6_submit_otp_frame (env : OtpEnv) (otp : String) :
    ((submit_otp env otp).1.status ≠ OtpStatus.success →
      (submit_otp env otp).2 = false) ∧
    ((submit_otp env otp).2 = true →
      (submit_otp env otp).1.status = OtpStatus.success ∧
      env.loggedInAfter = true) := by
  cases hpi : env.pageInitialized <;>
  cases hv : (env.otpNameVisible || env.otpIdVisible || env.otpVerifVisible) <;>
  cases hsf : env.submitFault <;>
  cases hli : env.loggedInAfter <;>
  cases hin : (env.invalidFi || env.invalidEn) <;>
    simp [submit_otp, save_context, hpi, hv, hsf, hli, hin]

def otpEnvInvalid : OtpEnv :=
  { pageInitialized := true, otpNameVisible := true, otpIdVisible := false,
    otpVerifVisible := false, submitFault := none, loggedInAfter := false,
    invalidFi := false, invalidEn := true, contextPresent := true }

/-- C6 witness: a rejected code (visible invalid-code text) leaves the
StorageState file unwritten. -/
theorem c6_witness : (submit_otp otpEnvInvalid "123456").2 = false :=
  (c6_submit_otp_frame otpEnvInvalid "123456").1 (by decide)

/- ------------------------------------------------------------------ -/
/- C5                                                                  -/
/- ------------------------------------------------------------------ -/

def otpEnvNoField : OtpEnv :=
  { pageInitialized := true, otpNameVisible := false, otpIdVisible := false,
    otpVerifVisible := false, submitFault := none, loggedInAfter := false,
    invalidFi := false, invalidEn := false, contextPresent := true }

/-- C5 counterexample: a non-authenticated page state with no passcode-field
variant visible (and no invalid-code text) yields the error message
`"Could not find OTP input field"` - not the unknown-state error the claim
requires for every other non-authenticated state. -/
theorem c5_counterexample :
    (submit_otp otpEnvNoField "123456").1 =
      { status := OtpStatus.error, message := "Could not find OTP input field" } ∧
    (submit_otp otpEnvNoField "123456").1.message ≠
      "Login failed (Unknown state)." ∧
    (submit_otp otpEnvNoField "123456").1.message ≠ "Invalid OTP code." := by
  decide

/-- C5 (amended): `submit_otp` always returns a typed result dictionary and
never throws.  On verified authentication it persists the session and returns
success; when not authenticated and an invalid-code text is visible (either
language variant) it returns the typed invalid-code error; when the passcode
form was found and submitted without fault and neither holds, the
unknown-state error; when no passcode-field variant is visible, or an internal
fault occurs during the submission, the typed error carries that fault's
message (e.g. `"Could not find OTP input field"`) instead of the
unknown-state message. -/
theorem c5_submit_otp (env : OtpEnv) (otp : String) :
    (env.pageInitialized = true →
      (env.otpNameVisible || env.otpIdVisible || env.otpVerifVisible) = true →
      env.submitFault = none →
      ((env.loggedInAfter = true →
        submit_otp env otp =
          ({ status := OtpStatus.success, message := "Login successful!" },
            env.contextPresent)) ∧
      (env.loggedInAfter = false → (env.invalidFi || env.invalidEn) = true →
        (submit_otp env otp).1 =
          { status := OtpStatus.error, message := "Invalid OTP code." }) ∧
      (env.loggedInAfter = false → (env.invalidFi || env.invalidEn) = false →
        (submit_otp env otp).1 =
          { status := OtpStatus.error,
            message := "Login failed (Unknown state)." }))) ∧
    (env.pageInitialized = true →
      (env.otpNameVisible || env.otpIdVisible || env.otpVerifVisible) = false →
      (submit_otp env otp).1 =
        { status := OtpStatus.error, message := "Could not find OTP input field" }) ∧
    (∀ m : String, env.pageInitialized = true →
      (env.otpNameVisible || env.otpIdVisible || env.otpVerifVisible) = true →
      env.submitFault = some m →
      (submit_otp env otp).1 = { status := OtpStatus.error, message := m }) ∧
    (env.pageInitialized = false →
      (submit_otp env otp).1 =
        { status := OtpStatus.error, message := "Page not initialized" }) := by
  refine
    ⟨fun h1 h2 h3 =>
      ⟨fun h4 => by simp [submit_otp, save_context, h1, h2, h3, h4],
       fun h4 h5 => by simp [submit_otp, save_context, h1, h2, h3, h4, h5],
       fun h4 h5 => by simp [submit_otp, save_context, h1, h2, h3, h4, h5]⟩,
     fun h1 h2 => by simp [submit_otp, h1, h2],
     fun m h1 h2 h3 => by simp [submit_otp, h1, h2, h3],
     fun h1 => by simp [submit_otp, h1]⟩

def otpEnvSuccess : OtpEnv :=
  { pageInitialized := true, otpNameVisible := true, otpIdVisible := false,
    otpVerifVisible := false, submitFault := none, loggedInAfter := true,
    invalidFi := false, invalidEn := false, contextPresent := true }

/-- C5 witness: a verified authentication returns the success dictionary and
persists the session. -/
theorem c5_witness :
    submit_otp otpEnvSuccess "123456" =
      ({ status := OtpStatus.success, message := "Login successful!" }, true) :=
  ((c5_submit_otp otpEnvSuccess "123456").1 rfl rfl rfl).1 rfl

/- ------------------------------------------------------------------ -/
/- C2                                                                  -/
/- ------------------------------------------------------------------ -/

/-- The outcome set the failure-policy claim allows the orchestrator entry
points: saved path, plain no-file, or the passcode signal. -/
def dlOutcomeClaimed : DlResult → Bool
  | DlResult.savedPath _ => true
  | DlResult.noFile => true
  | DlResult.otpRequired => true
  | DlResult.errorDict _ => false
  | DlResult.raised _ => false

def faultyNavWorld : ExportWorld :=
  { isInitialized := true, initFault := none, nav := StepRes.fault "nav crashed",
    urlAtLoginAfterNav := false, click := StepRes.ok true,
    primaryVisible := fun _ => true, primaryEnabled := fun _ => true,
    fallbackVisible := fun _ => true, fallbackEnabled := fun _ => true,
    waitFault := none, download := StepRes.ok none }

/-- C2 counterexample: an internal navigation fault makes
`download_existing_export` return the typed `{"status": "error", ...}`
dictionary - an outcome outside the claimed saved-path / no-file /
passcode-required set, i.e. a further distinguished failure besides the
passcode condition. -/
theorem c2_counterexample :
    download_existing_export faultyNavWorld = DlResult.errorDict "nav crashed" ∧
    dlOutcomeClaimed (download_existing_export faultyNavWorld) = false := by
  decide

/-- C2 (amended): on an initialized automator,
`request_new_export_and_download` never lets a fault during navigation,
clicking, waiting or download escape - every such fault becomes the plain
`None` no-file result, and the passcode signal arises exactly when navigation
fails while the page sits on a login/authn URL.  `download_existing_export`
instead maps every failed navigation to the passcode signal and converts
internal faults during navigation or download into the typed
`{"status": "error", "message": ...}` dictionary rather than `None`.  A fault
raised by the pre-`try` initialization propagates out of both entry points. -/
theorem c2_orchestrator_outcomes (w : ExportWorld) :
    (w.isInitialized = true →
      (∀ m, request_new_export_and_download w ≠ ReqResult.raised m) ∧
      (∀ m, w.nav = StepRes.fault m →
        request_new_export_and_download w = ReqResult.noFile) ∧
      (w.nav = StepRes.ok false →
        request_new_export_and_download w =
          (if w.urlAtLoginAfterNav then ReqResult.otpRequired else ReqResult.noFile)) ∧
      (∀ m, w.nav = StepRes.ok true → w.click = StepRes.fault m →
        request_new_export_and_download w = ReqResult.noFile) ∧
      (∀ m, w.nav = StepRes.ok true → w.waitFault = some m →
        request_new_export_and_download w = ReqResult.noFile) ∧
      (∀ m, w.nav = StepRes.ok true → w.download = StepRes.fault m →
        request_new_export_and_download w = ReqResult.noFile) ∧
      (request_new_export_and_download w = ReqResult.otpRequired →
        w.nav = StepRes.ok false ∧ w.urlAtLoginAfterNav = true) ∧
      (∀ m, w.nav = StepRes.fault m →
        download_existing_export w = DlResult.errorDict m) ∧
      (w.nav = StepRes.ok false →
        download_existing_export w = DlResult.otpRequired) ∧
      (∀ m, w.nav = StepRes.ok true → w.download = StepRes.fault m →
        download_existing_export w = DlResult.errorDict m)) ∧
    (∀ m, w.isInitialized = false → w.initFault = some m →
      request_new_export_and_download w = ReqResult.raised m ∧
      download_existing_export w = DlResult.raised m) := by
  obtain ⟨wi, wif, wnav, wurl, wclick, pv, pe, fv, fe, wwf, wdl⟩ := w
  constructor
  · intro hinit
    have hwi : wi = true := hinit
    subst hwi
    refine ⟨fun m => ?_, fun m hnav => ?_, fun hnav => ?_, fun m hnav hclick => ?_,
      fun m hnav hwf => ?_, fun m hnav hdl => ?_, fun hotp => ?_, fun m hnav => ?_,
      fun hnav => ?_, fun m hnav hdl => ?_⟩
    · cases wnav with
      | fault m2 => simp [request_new_export_and_download]
      | ok b =>
        cases b
        · cases wurl <;> simp [request_new_export_and_download]
        · cases wclick with
          | fault m2 => simp [request_new_export_and_download]
          | ok bc =>
            cases wwf with
            | some m2 => simp [request_new_export_and_download]
            | none =>
              cases wdl with
              | fault m2 => simp [request_new_export_and_download]
              | ok p =>
                cases p with
                | none => simp [request_new_export_and_download]
                | some path =>
                  simp only [request_new_export_and_download]
                  split <;> simp_all
                  split <;> simp_all
    · have h : wnav = StepRes.fault m := hnav
      subst h
      simp [request_new_export_and_download]
    · have h : wnav = StepRes.ok false := hnav
      subst h
      simp [request_new_export_and_download]
    · have h : wnav = StepRes.ok true := hnav
      subst h
      have h2 : wclick = StepRes.fault m := hclick
      subst h2
      simp [request_new_export_and_download]
    · have h : wnav = StepRes.ok true := hnav
      subst h
      have h2 : wwf = some m := hwf
      subst h2
      cases wclick <;> simp [request_new_export_and_download]
    · have h : wnav = StepRes.ok true := hnav
      subst h
      have h2 : wdl = StepRes.fault m := hdl
      subst h2
      cases wclick with
      | fault m2 => simp [request_new_export_and_download]
      | ok bc =>
        cases wwf with
        | some m2 => simp [request_new_export_and_download]
        | none => simp [request_new_export_and_download]
    · cases wnav with
      | fault m2 => simp [request_new_export_and_download] at hotp
      | ok b =>
        cases b
        · cases wurl
          · simp [request_new_export_and_download] at hotp
          · exact ⟨rfl, rfl⟩
        · cases wclick with
          | fault m2 => simp [request_new_export_and_download] at hotp
          | ok bc =>
            cases wwf with
            | some m2 => simp [request_new_export_and_download] at hotp
            | none =>
              cases wdl with
              | fault m2 => simp [request_new_export_and_download] at hotp
              | ok p =>
                cases p with
                | none => simp [request_new_export_and_download] at hotp
                | some path =>
                  simp only [request_new_export_and_download] at hotp
                  split at hotp <;> simp_all
                  split at hotp <;> simp_all
    · have h : wnav = StepRes.fault m := hnav
      subst h
      simp [download_existing_export]
    · have h : wnav = StepRes.ok false := hnav
      subst h
      simp [download_existing_export]
    · have h : wnav = StepRes.ok true := hnav
      subst h
      have h2 : wdl = StepRes.fault m := hdl
      subst h2
      simp [download_existing_export]
  · intro m hinit hif
    have h1 : wi = false := hinit
    subst h1
    have h2 : wif = some m := hif
    subst h2
    exact ⟨rfl, rfl⟩

def faultyDownloadWorld : ExportWorld :=
  { isInitialized := true, initFault := none, nav := StepRes.ok true,
    urlAtLoginAfterNav := false, click := StepRes.ok true,
    primaryVisible := fun _ => true, primaryEnabled := fun _ => true,
    fallbackVisible := fun _ => true, fallbackEnabled := fun _ => true,
    waitFault := none, download := StepRes.fault "download crashed" }

/-- C2 witness: at the concrete navigation-fault world, the request entry
point returns plain `None` while the download-only entry point returns the
typed error dictionary; and at a concrete download-fault world the request
entry point again returns plain `None` while the download-only entry point
returns the typed error dictionary. -/
theorem c2_witness :
    request_new_export_and_download faultyNavWorld = ReqResult.noFile ∧
    download_existing_export faultyNavWorld = DlResult.errorDict "nav crashed" ∧
    request_new_export_and_download faultyDownloadWorld = ReqResult.noFile ∧
    download_existing_export faultyDownloadWorld =
      DlResult.errorDict "download crashed" := by
  obtain ⟨-, hnf, -, -, -, -, -, hde, -, -⟩ :=
    (c2_orchestrator_outcomes faultyNavWorld).1 rfl
  obtain ⟨-, -, -, -, -, hreq, -, -, -, hdd⟩ :=
    (c2_orchestrator_outcomes faultyDownloadWorld).1 rfl
  exact ⟨hnf "nav crashed" rfl, hde "nav crashed" rfl,
    hreq "download crashed" rfl rfl, hdd "download crashed" rfl rfl⟩

/- ------------------------------------------------------------------ -/
/- C4                                                                  -/
/- ------------------------------------------------------------------ -/

/-- C4: the generation wait checks readiness at most 30 times
(`max_retries = 30`) with a 300-second interval (`poll_interval = 300`)
between checks; when the whole retry budget passes without the request button
becoming visible and enabled again, the wait returns `False` (after 30 x 300
seconds of sleeping) instead of raising, the orchestrator call yields the
`None` no-file result, and the run's final status message is
`"Failed to download export."`, distinct from the successful `"Idle"`. -/
theorem c4_wait_budget (w : ExportWorld) (rwld : RunWorld) :
    maxRetries = 30 ∧
    pollIntervalSeconds = 300 ∧
    waitPollCount w ≤ maxRetries ∧
    ((∀ i, i < maxRetries → pollReady w i = false) →
      wait_for_processing w = false ∧
      waitSleepSeconds w = maxRetries * pollIntervalSeconds ∧
      (w.isInitialized = true → w.nav = StepRes.ok true →
        w.click = StepRes.ok true → w.waitFault = none →
        request_new_export_and_download w = ReqResult.noFile) ∧
      (rwld.exportW = w → w.isInitialized = true → w.nav = StepRes.ok true →
        w.click = StepRes.ok true → w.waitFault = none →
        rwld.initFault = none → rwld.loginOutcome = LoginOut.loggedIn →
        lastStatus (run_ingestion_task false true rwld) =
          some "Failed to download export." ∧
        "Failed to download export." ≠ "Idle")) := by
  refine ⟨rfl, rfl, pollCountLoop_le (pollReady w) maxRetries 0, fun hex => ?_⟩
  have hwait : wait_for_processing w = false := by
    refine waitLoop_false (pollReady w) maxRetries 0 fun j hj => ?_
    simpa using hex j hj
  have hsleep : waitSleepSeconds w = maxRetries * pollIntervalSeconds := by
    refine sleepLoop_exhausted (pollReady w) maxRetries 0 fun j hj => ?_
    simpa using hex j hj
  have hreq : w.isInitialized = true → w.nav = StepRes.ok true →
      w.click = StepRes.ok true → w.waitFault = none →
      request_new_export_and_download w = ReqResult.noFile := by
    intro hinit hnav hclick hwf
    unfold request_new_export_and_download
    have hni : (if w.isInitialized then none else w.initFault) = none := by
      simp [hinit]
    rw [hni, hnav, hclick, hwf, hwait]
    rfl
  refine ⟨hwait, hsleep, hreq, fun hexp hinit hnav hclick hwf hrif hlog => ?_⟩
  have hr : request_new_export_and_download rwld.exportW = ReqResult.noFile := by
    rw [hexp]; exact hreq hinit hnav hclick hwf
  refine ⟨?_, by decide⟩
  simp [run_ingestion_task, hrif, hlog, hr, lastStatus]

def stuckExportWorld : ExportWorld :=
  { isInitialized := true, initFault := none, nav := StepRes.ok true,
    urlAtLoginAfterNav := false, click := StepRes.ok true,
    primaryVisible := fun _ => true, primaryEnabled := fun _ => false,
    fallbackVisible := fun _ => true, fallbackEnabled := fun _ => false,
    waitFault := none, download := StepRes.ok none }

def stuckRunWorld : RunWorld :=
  { initFault := none, loginOutcome := LoginOut.loggedIn,
    exportW := stuckExportWorld, ingestFault := none,
    nowStr := "2024-01-01 12:00:00" }

/-- C4 witness: with the request button never re-enabled, the wait returns
`False`, the orchestrator yields `None`, and the run ends in the distinct
failure status. -/
theorem c4_witness :
    wait_for_processing stuckExportWorld = false ∧
    request_new_export_and_download stuckExportWorld = ReqResult.noFile ∧
    lastStatus (run_ingestion_task false true stuckRunWorld) =
      some "Failed to download export." := by
  have h := (c4_wait_budget stuckExportWorld stuckRunWorld).2.2.2 (by decide)
  exact ⟨h.1, h.2.2.1 rfl rfl rfl rfl,
    (h.2.2.2 rfl rfl rfl rfl rfl rfl rfl).1⟩

/- ------------------------------------------------------------------ -/
/- C3                                                                  -/
/- ------------------------------------------------------------------ -/

/-- C3: for every valid wall-clock time and schedule time `sh:sm`, the
scheduler's computed `next_run` lands exactly at the schedule time, on today
or tomorrow, at or after the current time, and is the earliest timestamp at
the schedule time that is at or after the current time; and every tick's
trace begins with the observability write of `next_run` (also when no action
is taken). -/
theorem c3_next_run (now : DateTime) (sh sm : Nat) :
    now.Valid → sh < 24 → sm < 60 →
    ((computeNextRun now sh sm).hour = sh ∧
     (computeNextRun now sh sm).minute = sm ∧
     (computeNextRun now sh sm).second = 0 ∧
     (computeNextRun now sh sm).micro = 0 ∧
     ((computeNextRun now sh sm).day = now.day ∨
      (computeNextRun now sh sm).day = now.day + 1) ∧
     now.toMicros ≤ (computeNextRun now sh sm).toMicros ∧
     (∀ t : DateTime, t.Valid → t.hour = sh → t.minute = sm → t.second = 0 →
       t.micro = 0 → now.toMicros ≤ t.toMicros →
       (computeNextRun now sh sm).toMicros ≤ t.toMicros) ∧
     (∀ (cfg : Cfg) (w : RunWorld),
       (scheduler_tick now sh sm cfg w).head? =
         some (Act.setStatusNextRun cfg.status (computeNextRun now sh sm)))) := by
  intro hv hsh hsm
  obtain ⟨d, nh, nm, ns, nu⟩ := now
  obtain ⟨hhour, hmin, hsec, hmic⟩ := hv
  refine ⟨?_, ?_, ?_, ?_, ?_, ?_, ?_, ?_⟩
  · simp only [computeNextRun, DateTime.replaceTime, DateTime.addOneDay]
    split <;> rfl
  · simp only [computeNextRun, DateTime.replaceTime, DateTime.addOneDay]
    split <;> rfl
  · simp only [computeNextRun, DateTime.replaceTime, DateTime.addOneDay]
    split <;> rfl
  · simp only [computeNextRun, DateTime.replaceTime, DateTime.addOneDay]
    split <;> rfl
  · simp only [computeNextRun, DateTime.replaceTime, DateTime.addOneDay]
    split
    · exact Or.inr rfl
    · exact Or.inl rfl
  · simp only [computeNextRun, DateTime.replaceTime, DateTime.addOneDay]
    split <;> (simp only [DateTime.toMicros] at *; omega)
  · intro t htv th tm ts tu hle
    obtain ⟨td, tth, ttm, tts, ttu⟩ := t
    obtain ⟨bh, bm, bs, bu⟩ := htv
    have th2 : tth = sh := th
    have tm2 : ttm = sm := tm
    have ts2 : tts = 0 := ts
    have tu2 : ttu = 0 := tu
    subst th2
    subst tm2
    subst ts2
    subst tu2
    simp only [computeNextRun, DateTime.replaceTime, DateTime.addOneDay]
    split <;> (simp only [DateTime.toMicros] at *; omega)
  · intro cfg w
    rfl

def validNow : DateTime :=
  { day := 100, hour := 12, minute := 0, second := 0, micro := 500000 }

/-- C3 witness: at noon with an `11:00` schedule the computed `next_run` is
tomorrow at `11:00`, at the schedule time and after the current time. -/
theorem c3_witness :
    (computeNextRun validNow 11 0).hour = 11 ∧
    (computeNextRun validNow 11 0).day = validNow.day + 1 ∧
    validNow.toMicros ≤ (computeNextRun validNow 11 0).toMicros := by
  have h := c3_next_run validNow 11 0
    (⟨by decide, by decide, by decide, by decide⟩) (by decide) (by decide)
  refine ⟨h.1, ?_, h.2.2.2.2.2.1⟩
  rcases h.2.2.2.2.1 with h5 | h5
  · exact absurd h5 (by decide)
  · exact h5

/- ------------------------------------------------------------------ -/
/- C9                                                                  -/
/- ------------------------------------------------------------------ -/

/-- C9: on a scheduler tick whose minute differs from the daily schedule
minute, with the stored status still containing the `"Waiting"` marker and
the minute a multiple of 5, the tick takes exactly the resume/poll branch
(not the daily full-run branch), and its trace is the `next_run`
observability write followed by the poll invocation of
`run_ingestion_task`. -/
theorem c9_poll_branch (now : DateTime) (sh sm : Nat) (cfg : Cfg) (w : RunWorld) :
    now.minute ≠ sm → statusHasWaiting cfg.status = true → now.minute % 5 = 0 →
    scheduler_tick_action now sh sm cfg.status = TickAction.pollRun ∧
    TickAction.pollRun ≠ TickAction.dailyRun ∧
    scheduler_tick now sh sm cfg w =
      Act.setStatusNextRun cfg.status (computeNextRun now sh sm) ::
        run_ingestion_task false cfg.is_active w := by
  intro hmin hwait hdiv
  have h1 : (now.hour == sh && now.minute == sm) = false := by
    simp [hmin]
  have h2 : (statusHasWaiting cfg.status && now.minute % 5 == 0) = true := by
    simp [hwait, hdiv]
  have hact : scheduler_tick_action now sh sm cfg.status = TickAction.pollRun := by
    unfold scheduler_tick_action
    rw [h1, h2]
    simp
  refine ⟨hact, by decide, ?_⟩
  unfold scheduler_tick
  rw [hact]

def pollNow : DateTime :=
  { day := 0, hour := 12, minute := 5, second := 0, micro := 0 }

def waitingCfg : Cfg :=
  { email := "user@example.com", status := "Waiting for OTP...",
    is_active := true, headless := true }

def pollRunWorld : RunWorld :=
  { initFault := none, loginOutcome := LoginOut.otpRequired,
    exportW := stuckExportWorld, ingestFault := none,
    nowStr := "2024-01-01 12:05:00" }

/-- C9 witness: at minute 5 with schedule `11:00` and status
`"Waiting for OTP..."`, the tick selects the poll branch. -/
theorem c9_witness :
    scheduler_tick_action pollNow 11 0 waitingCfg.status = TickAction.pollRun :=
  (c9_poll_branch pollNow 11 0 waitingCfg pollRunWorld (by decide) (by decide)
    (by decide)).1

/- ------------------------------------------------------------------ -/
/- C1                                                                  -/
/- ------------------------------------------------------------------ -/

theorem nonIdleBeforeBrowser_cons (s : String) (rest : List Act)
    (h : ¬s = "Idle") :
    nonIdleBeforeBrowser (Act.setStatus s :: rest) = true := by
  rw [nonIdleBeforeBrowser, if_neg h]

def processingCfg : Cfg :=
  { email := "user@example.com", status := "Processing", is_active := true,
    headless := true }

def benignExportWorld : ExportWorld :=
  { isInitialized := true, initFault := none, nav := StepRes.ok true,
    urlAtLoginAfterNav := false, click := StepRes.ok true,
    primaryVisible := fun _ => true, primaryEnabled := fun _ => true,
    fallbackVisible := fun _ => true, fallbackEnabled := fun _ => true,
    waitFault := none, download := StepRes.ok (some "export.zip") }

def benignRunWorld : RunWorld :=
  { initFault := none, loginOutcome := LoginOut.loggedIn,
    exportW := benignExportWorld, ingestFault := none,
    nowStr := "2024-01-01 11:00:00" }

/-- C1 counterexample: with stored status `"Processing"` the `run-now`
endpoint still begins a run - it mutates the stored record (writing
`"Starting manual run..."`) and reaches browser actions instead of rejecting
with a conflict and leaving the record unchanged; and `request-export` starts
a run when the stored status is `"Waiting for OTP..."`, which is outside
`{Idle, Error}`. -/
theorem c1_counterexample :
    (run_now_endpoint processingCfg benignRunWorld).1 = RunNowOutcome.started ∧
    (run_now_endpoint processingCfg benignRunWorld).2 ≠ [] ∧
    (run_now_endpoint processingCfg benignRunWorld).2.head? =
      some (Act.setStatus "Starting manual run...") ∧
    Act.browser "automator.initialize" ∈
      (run_now_endpoint processingCfg benignRunWorld).2 ∧
    (request_export_endpoint { processingCfg with status := "Waiting for OTP..." }
      benignExportWorld none "2024-01-01 11:00:00").1 = ReqExportOutcome.started := by
  decide

/-- C1 (amended): only `request-export` gates on stored status - it rejects
with a 409 conflict, queues nothing and leaves the record untouched exactly
when status equals `"Processing"`, and starts the sync for any other stored
status (including other non-idle values); `run-now` performs no status check
and begins a run whatever the stored status, as does the scheduler's daily
branch (which fires on the schedule minute regardless of status); and every
run that does start writes a non-idle status before any browser action
occurs. -/
theorem c1_run_start_gating (cfg : Cfg) (w : ExportWorld) (rwld : RunWorld)
    (ingestFault : Option String) (nowStr : String) :
    (cfg.status = "Processing" →
      request_export_endpoint cfg w ingestFault nowStr =
        (ReqExportOutcome.conflict409, [])) ∧
    (cfg.status ≠ "Processing" →
      request_export_endpoint cfg w ingestFault nowStr =
        (ReqExportOutcome.started, run_full_sync_task w ingestFault nowStr)) ∧
    nonIdleBeforeBrowser (run_full_sync_task w ingestFault nowStr) = true ∧
    nonIdleBeforeBrowser (run_now_endpoint cfg rwld).2 = true ∧
    nonIdleBeforeBrowser (run_ingestion_task false true rwld) = true ∧
    (∀ (now : DateTime) (status : String) (sh sm : Nat),
      now.hour = sh → now.minute = sm →
      scheduler_tick_action now sh sm status = TickAction.dailyRun) := by
  obtain ⟨rif, rlo, rex, rin, rns⟩ := rwld
  refine ⟨fun hp => ?_, fun hp => ?_, ?_, ?_, ?_, fun now status sh sm hh hm => ?_⟩
  · unfold request_export_endpoint
    rw [if_pos hp]
  · unfold request_export_endpoint
    rw [if_neg hp]
  · exact nonIdleBeforeBrowser_cons _ _ (by decide)
  · cases rif <;> exact nonIdleBeforeBrowser_cons _ _ (by decide)
  · exact nonIdleBeforeBrowser_cons _ _ (by decide)
  · unfold scheduler_tick_action
    simp [hh, hm]

def idleCfg : Cfg :=
  { email := "user@example.com", status := "Idle", is_active := true,
    headless := true }

/-- C1 witness: `request-export` with stored status `"Processing"` rejects
with the 409 conflict and an empty trace, and a started `run-now` writes a
non-idle status before any browser action. -/
theorem c1_witness :
    request_export_endpoint processingCfg benignExportWorld none
      "2024-01-01 11:00:00" = (ReqExportOutcome.conflict409, []) ∧
    nonIdleBeforeBrowser (run_now_endpoint idleCfg benignRunWorld).2 = true :=
  ⟨(c1_run_start_gating processingCfg benignExportWorld benignRunWorld none
      "2024-01-01 11:00:00").1 rfl,
   (c1_run_start_gating idleCfg benignExportWorld benignRunWorld none
      "2024-01-01 11:00:00").2.2.2.1⟩

end Oura
